import Mathlib

/-!
Verification of the PEX deploy script `src/deploy_pex.py` of the
dagster-cloud-action repository, as a shallow embedding in Lean.

Subprocess invocations, environment variables and file contents are modelled
as explicit inputs (a `Config` record); exceptions raised by the Python
runtime are modelled with `Except PyError`; `sys.exit(n)` is the
`PyError.systemExit n` constructor.  An uncaught exception terminates the
Python process with exit code 1, which the model records with `raised = true`.
The second entry point of the repository (the Docker fallback build script)
is not among the provided source files and is modelled from the spec, as
noted on its definitions.
-/

/-- Python exceptions that the modelled code can raise. -/
inductive PyError where
  /-- `open()` on a file that is absent or unreadable. -/
  | fileNotFound
  /-- `args[0]` or `args.pop(0)` on an empty list. -/
  | indexError
  /-- `sys.exit(code)`. -/
  | systemExit (code : Nat)
deriving DecidableEq, Repr

/-- Python `str.splitlines(keepends=False)` restricted to the line
separators that occur in practice (`\n`, `\r\n`, `\r`); the exotic unicode
separators Python also recognises are omitted.  Works on the character list
of the string. -/
def pySplitlinesAux : List Char → List Char → List (List Char)
  | [], acc => if acc.isEmpty then [] else [acc.reverse]
  | '\r' :: '\n' :: rest, acc => acc.reverse :: pySplitlinesAux rest []
  | '\r' :: rest, acc => acc.reverse :: pySplitlinesAux rest []
  | '\n' :: rest, acc => acc.reverse :: pySplitlinesAux rest []
  | c :: rest, acc => pySplitlinesAux rest (c :: acc)

/-- Python `str.splitlines(keepends=False)` as a `String → List String`. -/
def pySplitlines (s : String) : List String :=
  (pySplitlinesAux s.toList []).map String.mk

/-- Python `line.startswith(pat)`, computed on the character lists so that
it reduces definitionally. -/
def py_startswith (line pat : String) : Bool :=
  pat.toList.isPrefixOf line.toList

/-- Python `line.split("=", 1)[1]`: everything after the first `=` of the
line.  The callers only use it on lines that contain a `=` (guarded by a
`startswith` check), so the out-of-range case of `[1]` never arises. -/
def split_eq_1 (line : String) : String :=
  String.mk ((line.toList.dropWhile (fun c => c ≠ '=')).drop 1)

/-- Python `str.strip()` restricted to ASCII whitespace (space, tab,
newline, carriage return); the unicode space characters Python also strips
are omitted. -/
def py_isspace (c : Char) : Bool :=
  c = ' ' || c = '\t' || c = '\n' || c = '\r'

/-- Python `s.strip()`. -/
def pyStrip (s : String) : String :=
  String.mk (((s.toList.dropWhile py_isspace).reverse.dropWhile py_isspace).reverse)

/-- Python `os.path.dirname` for POSIX paths: the part of the path before
the last `/` (keeping a run of leading slashes intact), `""` when there is
no `/`. -/
def dirname (p : String) : String :=
  let cs := p.toList
  let head := (cs.reverse.dropWhile (fun c => c ≠ '/')).reverse
  if head.isEmpty then ""
  else if head.all (fun c => c = '/') then String.mk head
  else String.mk ((head.reverse.dropWhile (fun c => c = '/')).reverse)

/-- Python f-string interpolation of an `os.getenv(...)` result: `None`
renders as the string `"None"`. -/
def fmt_env : Option String → String
  | none => "None"
  | some s => s

/-- The line-scanning loop of `get_runner_ubuntu_version` (deploy_pex.py
lines 64-67): return the value of the first `DISTRIB_RELEASE=` line, else
fall back to `"22.04"`. -/
def scan_release_lines : List String → String
  | [] => "22.04"
  | line :: rest =>
    if py_startswith line "DISTRIB_RELEASE=" then split_eq_1 line
    else scan_release_lines rest

/-- `get_runner_ubuntu_version` (deploy_pex.py lines 57-67).  The contents of
`/etc/lsb-release` are an explicit input; `none` models a file that is absent
or unreadable, on which `open()` raises. -/
def get_runner_ubuntu_version (lsb_release : Option String) : Except PyError String :=
  match lsb_release with
  | none => Except.error PyError.fileNotFound
  | some contents => Except.ok (scan_release_lines (pySplitlines contents))

/-- The build-method selection of `main` (deploy_pex.py lines 44-47):
`local` exactly for the string `"20.04"`, `docker` otherwise. -/
def choose_build_method (ubuntu_version : String) : String :=
  if ubuntu_version = "20.04" then "local" else "docker"

/-- Specification-side reading of the extraction: the value of the first
`DISTRIB_RELEASE=` line of the release file, if any.  Used to compare the
code against the wording of the spec. -/
def first_release_value : List String → Option String
  | [] => none
  | line :: rest =>
    if py_startswith line "DISTRIB_RELEASE=" then some (split_eq_1 line)
    else first_release_value rest

/-- `get_pr_number` (deploy_pex.py lines 196-203).
`re.match(r"refs/pull/(\d+)", github_ref)` anchors at the start only, so this
is a prefix match with trailing text allowed; the group is the maximal run of
digits after the literal prefix (`\d` is modelled as the ASCII digits).  An
unset `GITHUB_REF` is read as `""` by the `os.getenv` default. -/
def get_pr_number (github_ref : Option String) : Option String :=
  let cs := (github_ref.getD "").toList
  if "refs/pull/".toList.isPrefixOf cs then
    let ds := (cs.drop "refs/pull/".toList.length).takeWhile Char.isDigit
    if ds.isEmpty then none else some (String.mk ds)
  else none

/-- Truthiness of the guard expression at deploy_pex.py line 167,
`if not UPDATE_COMMENT_SCRIPT_PATH.exists:`.  The attribute access
`UPDATE_COMMENT_SCRIPT_PATH.exists` does not call the method: it evaluates
to the bound-method object itself, a non-null object, hence truthy no matter
whether the file exists on disk.  The argument records what the call
`.exists()` would have returned; the result does not depend on it. -/
def update_comment_script_check (script_on_disk : Bool) : Bool :=
  let _ := script_on_disk
  true

/-- Outcome of one `update_pr_comment` call. -/
inductive PostOutcome where
  /-- returned at line 165: no pull-request number was available. -/
  | skipped_no_pr
  /-- returned at line 169: the comment script was reported missing. -/
  | skipped_no_script
  /-- the comment subprocess was run (`check=False`); a non-zero
  `returncode` is printed and ignored (lines 189-193), never raised. -/
  | posted (pr_id : String) (returncode : Int)
deriving DecidableEq, Repr

/-- One `update_pr_comment` call: its arguments and its outcome. -/
structure CommentCall where
  deployment : String
  location : String
  action : String
  outcome : PostOutcome
deriving DecidableEq, Repr

/-- `update_pr_comment` (deploy_pex.py lines 160-193).  The ambient state it
reads (`GITHUB_REF`, the comment script file, the comment subprocess exit
code) is passed explicitly. -/
def update_pr_comment (github_ref : Option String) (script_on_disk : Bool)
    (comment_returncode : Int) (deployment_name location_name action : String) :
    CommentCall :=
  { deployment := deployment_name, location := location_name, action := action,
    outcome :=
      match get_pr_number github_ref with
      | none => PostOutcome.skipped_no_pr
      | some pr_id =>
        if update_comment_script_check script_on_disk = false then
          PostOutcome.skipped_no_script
        else
          PostOutcome.posted pr_id comment_returncode }

/-- `notify` (deploy_pex.py lines 153-157): skip entirely for a `None`
deployment name, else one `update_pr_comment` call per location, in order. -/
def notify (github_ref : Option String) (script_on_disk : Bool)
    (comment_returncode : Int) (deployment_name : Option String)
    (locations : List String) (action : String) : List CommentCall :=
  match deployment_name with
  | none => []
  | some d => locations.map fun location_name =>
      update_pr_comment github_ref script_on_disk comment_returncode
        d location_name action

/-- One record of the `locations` list of the workspace descriptor. -/
structure LocationEntry where
  location_name : String
deriving DecidableEq, Repr

/-- The parsed workspace descriptor (`dagster_cloud.yaml`): a document with
a top-level `locations` list. -/
structure WorkspaceYaml where
  locations : List LocationEntry
deriving DecidableEq, Repr

/-- `get_locations` (deploy_pex.py lines 70-77); the parsed YAML document is
an explicit input (the descriptor file is assumed readable and
well-formed). -/
def get_locations (workspace : WorkspaceYaml) : List String :=
  workspace.locations.map fun location => location.location_name

/-- `Path(__file__).parent.parent / "generated/gha/dagster-cloud.pex"`,
rendered as the path string placed on the command lines. -/
def DAGSTER_CLOUD_PEX_PATH : String :=
  "generated/gha/dagster-cloud.pex"

/-- All inputs of one run of the script: environment variables, file
contents, and the observed behaviour of the subprocesses it spawns. -/
structure Config where
  github_event_name : Option String
  input_deployment : Option String
  /-- `sys.argv[1:]`. -/
  argv_tail : List String
  /-- contents of `/etc/lsb-release`; `none` when absent or unreadable. -/
  lsb_release : Option String
  /-- returncode of the `ci branch-deployment` subprocess run by
  `get_branch_deployment_name`. -/
  branch_cmd_returncode : Int
  /-- captured output lines (with their trailing newlines) of that
  subprocess. -/
  branch_cmd_output : List String
  workspace : WorkspaceYaml
  /-- returncode of the `deploy-python-executable` subprocess. -/
  deploy_returncode : Int
  /-- captured output of that subprocess. -/
  deploy_output : List String
  github_sha : Option String
  github_server_url : Option String
  github_repository : Option String
  dagster_cloud_url : Option String
  github_ref : Option String
  /-- whether `create_or_update_comment.py` exists on disk. -/
  script_on_disk : Bool
  /-- exit code of the comment-posting subprocess. -/
  comment_returncode : Int
deriving Repr

/-- `get_branch_deployment_name` (deploy_pex.py lines 95-111): run the
`ci branch-deployment` subprocess; on non-zero exit print and `sys.exit(1)`,
else return the joined, stripped output. -/
def get_branch_deployment_name (c : Config) : Except PyError String :=
  if c.branch_cmd_returncode ≠ 0 then Except.error (PyError.systemExit 1)
  else Except.ok (pyStrip (String.join c.branch_cmd_output))

/-- Result of one `deploy_pex` call (deploy_pex.py lines 114-150): the
subprocess result it returns, the command it built, and the notification
calls it made. -/
structure DeployResult where
  returncode : Int
  output : List String
  /-- the deployment name embedded in the `--url=` flag. -/
  deployment_name : String
  /-- the full `--url=` flag passed to the packaging tool. -/
  deployment_flag : String
  /-- the full command line of the packaging-tool invocation. -/
  cmd : List String
  /-- the `update_pr_comment` calls of the pending `notify`, made before
  the packaging tool is invoked. -/
  pre_calls : List CommentCall
  /-- the `update_pr_comment` calls of the terminal `notify`, made after
  the packaging tool returned. -/
  post_calls : List CommentCall
deriving DecidableEq, Repr

/-- `deploy_pex` (deploy_pex.py lines 114-150). -/
def deploy_pex (c : Config) (args : List String)
    (branch_deployment_name : Option String) (build_method : String) :
    Except PyError DeployResult :=
  match args with
  | [] => Except.error PyError.indexError
  | dagster_cloud_yaml :: rest =>
    let args1 := dirname dagster_cloud_yaml :: rest
        ++ ["--build-method=" ++ build_method]
    let commit_hash := fmt_env c.github_sha
    let git_url := fmt_env c.github_server_url ++ "/"
        ++ fmt_env c.github_repository ++ "/tree/" ++ commit_hash
    -- Python truthiness at line 120: both None and "" fall back to "prod"
    let deployment_name :=
      match branch_deployment_name with
      | none => "prod"
      | some s => if s = "" then "prod" else s
    let deployment_flag := "--url=" ++ fmt_env c.dagster_cloud_url ++ "/"
        ++ deployment_name
    let locations := get_locations c.workspace
    let timeout_args := ["--location-load-timeout=3600",
        "--agent-heartbeat-timeout=600"]
    let pre_calls := notify c.github_ref c.script_on_disk c.comment_returncode
        branch_deployment_name locations "pending"
    let cmd := [DAGSTER_CLOUD_PEX_PATH, "-m", "dagster_cloud_cli.entrypoint",
        "serverless", "deploy-python-executable"] ++ args1 ++
        ["--location-name=*", "--location-file=" ++ dagster_cloud_yaml,
         "--git-url=" ++ git_url, "--commit-hash=" ++ commit_hash,
         deployment_flag] ++ timeout_args
    let returncode := c.deploy_returncode
    let post_calls :=
      if returncode ≠ 0 then
        notify c.github_ref c.script_on_disk c.comment_returncode
          branch_deployment_name locations "failed"
      else
        notify c.github_ref c.script_on_disk c.comment_returncode
          branch_deployment_name locations "success"
    Except.ok
      { returncode := returncode, output := c.deploy_output,
        deployment_name := deployment_name, deployment_flag := deployment_flag,
        cmd := cmd, pre_calls := pre_calls, post_calls := post_calls }

/-- Outcome of one run of the whole script. -/
structure MainResult where
  /-- the process exit code. -/
  exit_code : Nat
  /-- `true` when the process ended with an uncaught exception (which also
  gives process exit code 1), `false` for a clean return or `sys.exit`. -/
  raised : Bool
  /-- the `deploy_pex` result, when that call was reached and returned. -/
  deploy : Option DeployResult
deriving DecidableEq, Repr

/-- `main` (deploy_pex.py lines 29-54); named `run_main` here because the
name `main` is reserved by Lean for the executable entry point. -/
def run_main (c : Config) : MainResult :=
  let args := c.argv_tail
  let step1 : Except PyError (Option String) :=
    if c.github_event_name = some "pull_request" then
      match args with
      | [] => Except.error PyError.indexError
      | _ :: _ =>
        -- project_dir = os.path.dirname(args[0]) is handed to the
        -- branch-deployment subprocess, whose observed result is the
        -- branch_cmd_* oracle of the Config
        match get_branch_deployment_name c with
        | Except.error e => Except.error e
        | Except.ok name => Except.ok (some name)
    else
      Except.ok (some (c.input_deployment.getD "prod"))
  match step1 with
  | Except.error (PyError.systemExit n) =>
      { exit_code := n, raised := false, deploy := none }
  | Except.error _ => { exit_code := 1, raised := true, deploy := none }
  | Except.ok deployment_name =>
    match get_runner_ubuntu_version c.lsb_release with
    | Except.error _ => { exit_code := 1, raised := true, deploy := none }
    | Except.ok ubuntu_version =>
      match deploy_pex c args deployment_name (choose_build_method ubuntu_version) with
      | Except.error (PyError.systemExit n) =>
          { exit_code := n, raised := false, deploy := none }
      | Except.error _ => { exit_code := 1, raised := true, deploy := none }
      | Except.ok d =>
        if d.returncode ≠ 0 then { exit_code := 1, raised := false, deploy := some d }
        else { exit_code := 0, raised := false, deploy := some d }

/-- All `update_pr_comment` calls of a run, in order. -/
def run_main_notifications (r : MainResult) : List CommentCall :=
  match r.deploy with
  | none => []
  | some d => d.pre_calls ++ d.post_calls

/-- substring test, Python `needle in line`. -/
def contains_substring (hay needle : List Char) : Bool :=
  hay.tails.any fun t => needle.isPrefixOf t

/-- Modelled from the spec: the Failure Signature of the Docker Fallback
Controller, whose script is not among the provided source files (only
`deploy_pex.py` is); spec sections 3 and 4.3. -/
def failure_signature : String := "No matching distribution"

/-- Modelled from the spec: line-by-line inspection of the captured build
output for the Failure Signature. -/
def has_failure_signature (output : List String) : Bool :=
  output.any fun line => contains_substring line.toList failure_signature.toList

/-- Result of one Docker Fallback Controller invocation: the final exit
status and the argument lists of the container re-invocations performed. -/
structure FallbackRun where
  final_exit : Int
  container_runs : List (List String)
deriving DecidableEq, Repr

/-- Modelled from the spec: the Docker Fallback Controller (spec sections 2,
4.3 and its state machine), whose script is not among the provided source
files.  Run the build in the current environment; on exit 0 finish with
success and no container run; on non-zero exit with the Failure Signature in
some output line, perform exactly one container re-invocation with
`--build-sdists` appended to the forwarded arguments, whose own exit status
is final and is not inspected further; on non-zero exit without the
signature, finish with the original exit status and no container run.  The
exit status and output of the initial build and the exit status of the
container run are explicit inputs. -/
def docker_fallback (build_args : List String) (local_exit : Int)
    (local_output : List String) (container_exit : Int) : FallbackRun :=
  if local_exit = 0 then { final_exit := 0, container_runs := [] }
  else if has_failure_signature local_output then
    { final_exit := container_exit,
      container_runs := [build_args ++ ["--build-sdists"]] }
  else { final_exit := local_exit, container_runs := [] }

/-- A concrete non-pull-request run whose release file is unreadable. -/
def cfg_unreadable_lsb : Config :=
  { github_event_name := none, input_deployment := some "prod",
    argv_tail := ["proj/dagster_cloud.yaml"], lsb_release := none,
    branch_cmd_returncode := 0, branch_cmd_output := [],
    workspace := { locations := [{ location_name := "web" }] },
    deploy_returncode := 0, deploy_output := [],
    github_sha := some "deadbeef", github_server_url := some "https://github.com",
    github_repository := some "org/repo",
    dagster_cloud_url := some "https://org.dagster.cloud",
    github_ref := some "refs/pull/11/merge", script_on_disk := true,
    comment_returncode := 0 }

/-- A concrete non-pull-request run that dies on the unreadable release file
although its deploy subprocess would have exited 0 and no branch-deployment
resolution was attempted. -/
def cfg_uncaught : Config :=
  { github_event_name := some "push", input_deployment := none,
    argv_tail := ["dagster_cloud.yaml"], lsb_release := none,
    branch_cmd_returncode := 0, branch_cmd_output := [],
    workspace := { locations := [{ location_name := "data" }] },
    deploy_returncode := 0, deploy_output := [],
    github_sha := some "cafe", github_server_url := some "https://github.com",
    github_repository := some "org/other",
    dagster_cloud_url := some "https://other.dagster.cloud",
    github_ref := some "refs/heads/main", script_on_disk := true,
    comment_returncode := 0 }

/-- A concrete pull-request run whose branch-deployment subprocess prints a
single newline, so the resolved branch-deployment name strips to the empty
string. -/
def cfg_empty_branch : Config :=
  { github_event_name := some "pull_request", input_deployment := none,
    argv_tail := ["proj/dagster_cloud.yaml"],
    lsb_release := some "DISTRIB_ID=Ubuntu\nDISTRIB_RELEASE=22.04\n",
    branch_cmd_returncode := 0, branch_cmd_output := ["\n"],
    workspace := { locations := [{ location_name := "loc1" }] },
    deploy_returncode := 0, deploy_output := [],
    github_sha := some "abc", github_server_url := some "https://github.com",
    github_repository := some "org/repo",
    dagster_cloud_url := some "https://org.dagster.cloud",
    github_ref := some "refs/pull/7/merge", script_on_disk := true,
    comment_returncode := 0 }

/-- A concrete pull-request run whose branch-deployment subprocess exits 1. -/
def cfg_branch_fail : Config :=
  { github_event_name := some "pull_request", input_deployment := none,
    argv_tail := ["proj/dagster_cloud.yaml"],
    lsb_release := some "DISTRIB_RELEASE=20.04\n",
    branch_cmd_returncode := 1, branch_cmd_output := ["error\n"],
    workspace := { locations := [{ location_name := "loc1" }] },
    deploy_returncode := 0, deploy_output := [],
    github_sha := some "abc", github_server_url := some "https://github.com",
    github_repository := some "org/repo",
    dagster_cloud_url := some "https://org.dagster.cloud",
    github_ref := some "refs/pull/8/merge", script_on_disk := true,
    comment_returncode := 0 }

/-- A concrete well-behaved run used to instantiate witness theorems: two
locations, a successful deploy subprocess, a pull-request trigger
reference. -/
def cfg_demo : Config :=
  { github_event_name := none, input_deployment := some "prod",
    argv_tail := ["proj/dagster_cloud.yaml"],
    lsb_release := some "DISTRIB_ID=Ubuntu\nDISTRIB_RELEASE=20.04\nDISTRIB_CODENAME=focal\n",
    branch_cmd_returncode := 0, branch_cmd_output := [],
    workspace := { locations := [{ location_name := "loc1" }, { location_name := "loc2" }] },
    deploy_returncode := 0, deploy_output := ["done\n"],
    github_sha := some "1234abcd", github_server_url := some "https://github.com",
    github_repository := some "org/repo",
    dagster_cloud_url := some "https://org.dagster.cloud",
    github_ref := some "refs/pull/3", script_on_disk := true,
    comment_returncode := 0 }

/-! ## Helper lemmas -/

theorem scan_release_lines_eq (lines : List String) :
    scan_release_lines lines = (first_release_value lines).getD "22.04" := by
  induction lines with
  | nil => rfl
  | cons line rest ih =>
    by_cases h : py_startswith line "DISTRIB_RELEASE=" <;>
      simp [scan_release_lines, first_release_value, h, ih]

theorem toList_mk (cs : List Char) : (String.mk cs).toList = cs := rfl

theorem isPrefixOf_append_self (l₁ l₂ : List Char) :
    l₁.isPrefixOf (l₁ ++ l₂) = true := by
  induction l₁ with
  | nil => simp [List.isPrefixOf]
  | cons a t ih => simp [List.isPrefixOf, ih]

theorem takeWhile_append_all (p : Char → Bool) (ds tail : List Char)
    (h1 : ∀ a ∈ ds, p a = true)
    (h2 : ∀ a, tail.head? = some a → p a = false) :
    (ds ++ tail).takeWhile p = ds := by
  induction ds with
  | nil =>
    cases tail with
    | nil => rfl
    | cons a t => simp [List.takeWhile_cons, h2 a rfl]
  | cons a t ih =>
    have pa : p a = true := h1 a (List.mem_cons_self a t)
    simp only [List.cons_append, List.takeWhile_cons, pa, if_true]
    exact congrArg (a :: ·) (ih fun b hb => h1 b (List.mem_cons_of_mem a hb))

theorem notify_calls_map (ref : Option String) (sod : Bool) (crc : Int)
    (d : String) (locs : List String) (a : String) :
    (notify ref sod crc (some d) locs a).map
        (fun call => (call.deployment, call.location, call.action))
      = locs.map fun loc => (d, loc, a) := by
  simp [notify, update_pr_comment]

theorem notify_length (ref : Option String) (sod : Bool) (crc : Int)
    (d : String) (locs : List String) (a : String) :
    (notify ref sod crc (some d) locs a).length = locs.length := by
  simp [notify]

theorem notify_deployment_eq (ref : Option String) (sod : Bool) (crc : Int)
    (d : String) (locs : List String) (a : String) :
    ∀ call ∈ notify ref sod crc (some d) locs a, call.deployment = d := by
  intro call hc
  simp only [notify, List.mem_map] at hc
  obtain ⟨loc, -, h⟩ := hc
  exact h ▸ rfl

theorem run_main_comment_rc_eq (c : Config) (rc : Int) :
    (run_main { c with comment_returncode := rc }).exit_code
      = (run_main c).exit_code ∧
    (run_main { c with comment_returncode := rc }).raised
      = (run_main c).raised := by
  by_cases hev : c.github_event_name = some "pull_request" <;>
  cases hargs : c.argv_tail <;>
  by_cases hrc : c.branch_cmd_returncode = 0 <;>
  cases hlsb : c.lsb_release <;>
  by_cases hd : c.deploy_returncode = 0 <;>
    simp [run_main, get_branch_deployment_name, get_runner_ubuntu_version,
      deploy_pex, hev, hargs, hrc, hlsb, hd]

/-! ## Claims -/

/-- C1: for every readable OS-release input, classification completes; when
the extracted `DISTRIB_RELEASE` value (the part after the first `=` of the
first matching line) equals `"20.04"` the chosen Build Method is `local`,
and for every other extracted value — including an absent or malformed
`DISTRIB_RELEASE` line, which falls back to `"22.04"` — the chosen Build
Method is `docker`. -/
theorem build_method_classification (contents : String) :
    (first_release_value (pySplitlines contents) = none →
      get_runner_ubuntu_version (some contents) = Except.ok "22.04" ∧
      choose_build_method "22.04" = "docker") ∧
    (∀ w, first_release_value (pySplitlines contents) = some w →
      get_runner_ubuntu_version (some contents) = Except.ok w ∧
      (choose_build_method w = "local" ↔ w = "20.04") ∧
      (w ≠ "20.04" → choose_build_method w = "docker")) := by
  constructor
  · intro h
    refine ⟨?_, by decide⟩
    simp [get_runner_ubuntu_version, scan_release_lines_eq, h]
  · intro w h
    refine ⟨?_, ?_, ?_⟩
    · simp [get_runner_ubuntu_version, scan_release_lines_eq, h]
    · constructor
      · intro hl
        by_contra hw
        simp [choose_build_method, hw] at hl
      · intro hw
        simp [choose_build_method, hw]
    · intro hw
      simp [choose_build_method, hw]

/-- Witness for C1 at two concrete release files. -/
theorem build_method_classification_witness :
    get_runner_ubuntu_version
        (some "DISTRIB_ID=Ubuntu\nDISTRIB_RELEASE=20.04\nDISTRIB_CODENAME=focal")
      = Except.ok "20.04" ∧
    choose_build_method "20.04" = "local" ∧
    get_runner_ubuntu_version (some "no release line here") = Except.ok "22.04" ∧
    choose_build_method "22.04" = "docker" := by
  obtain ⟨-, h2⟩ := build_method_classification
    "DISTRIB_ID=Ubuntu\nDISTRIB_RELEASE=20.04\nDISTRIB_CODENAME=focal"
  obtain ⟨ha, hb, -⟩ := h2 "20.04" (by decide)
  obtain ⟨hc, hd⟩ := (build_method_classification "no release line here").1 (by decide)
  exact ⟨ha, hb.mpr rfl, hc, hd⟩

/-- C3 counterexample: at the concrete input `none` (release file absent or
unreadable) classification does not complete with the `docker` default: it
raises `FileNotFoundError`, and in a concrete full run this uncaught
exception terminates the process with exit code 1 — classification failure
is fatal here. -/
theorem classification_unreadable_is_fatal :
    get_runner_ubuntu_version none = Except.error PyError.fileNotFound ∧
    get_runner_ubuntu_version none ≠ Except.ok "22.04" ∧
    run_main cfg_unreadable_lsb
      = { exit_code := 1, raised := true, deploy := none } := by
  refine ⟨rfl, ?_, by decide⟩
  intro h
  exact Except.noConfusion h

/-- C3 (amended): when the release file can be read, classification always
completes, and an absent or malformed `DISTRIB_RELEASE` line falls back to
`"22.04"` and thus the `docker` Build Method; but when the file cannot be
read at all, `open()` raises and the failure is fatal to the run. -/
theorem classification_failure_policy (lsb : Option String) :
    (∀ s, lsb = some s →
      get_runner_ubuntu_version lsb
        = Except.ok (scan_release_lines (pySplitlines s))) ∧
    (∀ s, lsb = some s → first_release_value (pySplitlines s) = none →
      get_runner_ubuntu_version lsb = Except.ok "22.04" ∧
      choose_build_method "22.04" = "docker") ∧
    (lsb = none →
      get_runner_ubuntu_version lsb = Except.error PyError.fileNotFound) := by
  refine ⟨?_, ?_, ?_⟩
  · intro s hs
    subst hs
    rfl
  · intro s hs h
    subst hs
    exact ⟨by simp [get_runner_ubuntu_version, scan_release_lines_eq, h], by decide⟩
  · intro h
    subst h
    rfl

/-- Witness for C3 (amended) at concrete inputs. -/
theorem classification_failure_policy_witness :
    get_runner_ubuntu_version (some "DISTRIB_ID=Ubuntu") = Except.ok "22.04" ∧
    choose_build_method "22.04" = "docker" ∧
    get_runner_ubuntu_version none = Except.error PyError.fileNotFound := by
  obtain ⟨-, h2, -⟩ := classification_failure_policy (some "DISTRIB_ID=Ubuntu")
  obtain ⟨ha, hb⟩ := h2 "DISTRIB_ID=Ubuntu" rfl (by decide)
  obtain ⟨-, -, h3⟩ := classification_failure_policy none
  exact ⟨ha, hb, h3 rfl⟩

/-- C10: `get_pr_number` performs an anchored prefix match, never a full
match: for every `GITHUB_REF` beginning with `refs/pull/` followed by one or
more digits it returns that digit group as a string, trailing segments such
as `/merge` allowed; for every other value — one not starting with the
literal prefix, one with no digit right after it, or an unset `GITHUB_REF`
(read as the empty string) — it returns `none`.  Being a total function of
its input, it never raises. -/
theorem get_pr_number_anchored_match :
    (∀ (ds tail : List Char), ds ≠ [] → (∀ ch ∈ ds, ch.isDigit = true) →
      (∀ ch, tail.head? = some ch → ch.isDigit = false) →
      get_pr_number (some (String.mk ("refs/pull/".toList ++ ds ++ tail)))
        = some (String.mk ds)) ∧
    (∀ s : String, "refs/pull/".toList.isPrefixOf s.toList = false →
      get_pr_number (some s) = none) ∧
    (∀ tail : List Char, (∀ ch, tail.head? = some ch → ch.isDigit = false) →
      get_pr_number (some (String.mk ("refs/pull/".toList ++ tail))) = none) ∧
    get_pr_number none = none := by
  refine ⟨?_, ?_, ?_, rfl⟩
  · intro ds tail hne hds htail
    have hpre : "refs/pull/".toList.isPrefixOf
        ("refs/pull/".toList ++ (ds ++ tail)) = true :=
      isPrefixOf_append_self _ _
    have hdrop : ("refs/pull/".toList ++ (ds ++ tail)).drop
        "refs/pull/".toList.length = ds ++ tail :=
      List.drop_left _ _
    have htake : (ds ++ tail).takeWhile Char.isDigit = ds :=
      takeWhile_append_all Char.isDigit ds tail hds htail
    simp only [get_pr_number, Option.getD_some, toList_mk, List.append_assoc,
      hpre, if_true, hdrop, htake]
    cases ds with
    | nil => exact absurd rfl hne
    | cons a t => rfl
  · intro s h
    simp only [get_pr_number, Option.getD_some, h, Bool.false_eq_true, if_false]
  · intro tail htail
    have hpre : "refs/pull/".toList.isPrefixOf
        ("refs/pull/".toList ++ tail) = true :=
      isPrefixOf_append_self _ _
    have hdrop : ("refs/pull/".toList ++ tail).drop
        "refs/pull/".toList.length = tail :=
      List.drop_left _ _
    have htake : tail.takeWhile Char.isDigit = [] := by
      cases tail with
      | nil => rfl
      | cons a t => simp [List.takeWhile_cons, htail a rfl]
    simp [get_pr_number, toList_mk, hpre, hdrop, htake]

/-- Witness for C10 at concrete trigger references. -/
theorem get_pr_number_anchored_match_witness :
    get_pr_number (some "refs/pull/123/merge") = some "123" ∧
    get_pr_number (some "refs/heads/main") = none ∧
    get_pr_number (some "refs/pull/merge") = none ∧
    get_pr_number none = none := by
  obtain ⟨h1, h2, h3, h4⟩ := get_pr_number_anchored_match
  refine ⟨?_, h2 "refs/heads/main" (by decide), ?_, h4⟩
  · have := h1 ['1', '2', '3'] ['/', 'm', 'e', 'r', 'g', 'e']
      (by decide) (by decide) (by decide)
    have heq : String.mk ("refs/pull/".toList ++ ['1', '2', '3']
        ++ ['/', 'm', 'e', 'r', 'g', 'e']) = "refs/pull/123/merge" := by decide
    have heq2 : String.mk ['1', '2', '3'] = "123" := by decide
    rw [heq, heq2] at this
    exact this
  · have := h3 ['m', 'e', 'r', 'g', 'e'] (by decide)
    have heq : String.mk ("refs/pull/".toList ++ ['m', 'e', 'r', 'g', 'e'])
        = "refs/pull/merge" := by decide
    rw [heq] at this
    exact this

/-- C2 counterexample: in a concrete pull-request run whose resolved
branch-deployment name is the empty string, the `--url` flag embeds the
deployment name `"prod"` while both the pending and the terminal
notification calls reference the empty-string target — the notifications
reference a different target than the one deployed to. -/
theorem empty_branch_name_target_mismatch :
    ((run_main cfg_empty_branch).deploy.map fun d =>
        (d.deployment_name,
         d.pre_calls.map CommentCall.deployment,
         d.post_calls.map CommentCall.deployment))
      = some ("prod", [""], [""]) ∧
    "prod" ≠ "" := by
  exact ⟨by decide, by decide⟩

/-- C2 (amended): within one `deploy_pex` call, the pending and the terminal
notifications always reference the same Deployment Target — the
`branch_deployment_name` argument, passed to both unchanged — and the
deployment name embedded in the `--url` flag equals that target whenever the
target is non-empty; when the resolved branch-deployment name is the empty
string, the `--url` flag falls back to `"prod"` while the notifications
still reference `""`. -/
theorem deploy_pex_notification_targets (c : Config) (yaml0 : String)
    (rest : List String) (s : String) (method : String) :
    ∃ d, deploy_pex c (yaml0 :: rest) (some s) method = Except.ok d ∧
      (∀ call ∈ d.pre_calls, call.deployment = s) ∧
      (∀ call ∈ d.post_calls, call.deployment = s) ∧
      d.deployment_name = (if s = "" then "prod" else s) ∧
      d.deployment_flag
        = "--url=" ++ fmt_env c.dagster_cloud_url ++ "/" ++ d.deployment_name ∧
      d.deployment_flag ∈ d.cmd := by
  refine ⟨_, rfl, ?_, ?_, ?_, ?_, ?_⟩
  · exact notify_deployment_eq _ _ _ _ _ _
  · by_cases hd : c.deploy_returncode = 0
    · rw [if_neg (fun hn => hn hd)]
      exact notify_deployment_eq _ _ _ _ _ _
    · rw [if_pos hd]
      exact notify_deployment_eq _ _ _ _ _ _
  · rfl
  · rfl
  · simp

/-- Witness for C2 (amended) at the empty branch-deployment name. -/
theorem deploy_pex_notification_targets_witness :
    ∃ d, deploy_pex cfg_demo ["proj/dagster_cloud.yaml"] (some "") "docker"
        = Except.ok d ∧
      d.deployment_name = "prod" := by
  obtain ⟨d, hd, -, -, h3, -, -⟩ := deploy_pex_notification_targets
    cfg_demo "proj/dagster_cloud.yaml" [] "" "docker"
  exact ⟨d, hd, by simpa using h3⟩

/-- C4: in every pull-request-triggered run whose branch-deployment
resolution subprocess exits non-zero, the process exits with code 1
immediately via `sys.exit` (not an uncaught exception), the packaging tool
is never invoked, and zero notifications (no pending, failed or success)
are emitted before that exit. -/
theorem branch_resolution_failure_exits_early (c : Config) (a0 : String)
    (rest : List String)
    (hev : c.github_event_name = some "pull_request")
    (hargs : c.argv_tail = a0 :: rest)
    (hrc : c.branch_cmd_returncode ≠ 0) :
    run_main c = { exit_code := 1, raised := false, deploy := none } ∧
    run_main_notifications (run_main c) = [] := by
  have h : run_main c = { exit_code := 1, raised := false, deploy := none } := by
    simp [run_main, get_branch_deployment_name, hev, hargs, hrc]
  exact ⟨h, by rw [h]; rfl⟩

/-- Witness for C4 at a concrete failing pull-request run. -/
theorem branch_resolution_failure_exits_early_witness :
    run_main cfg_branch_fail = { exit_code := 1, raised := false, deploy := none } ∧
    run_main_notifications (run_main cfg_branch_fail) = [] :=
  branch_resolution_failure_exits_early cfg_branch_fail
    "proj/dagster_cloud.yaml" [] rfl rfl (by decide)

/-- C5 counterexample: a concrete non-pull-request run with an unreadable
release file exits with code 1 through an uncaught exception, although the
deploy invocation was never reached (so it did not exit non-zero) and no
branch-deployment name resolution was attempted (the trigger was not a pull
request) — a third way of exiting 1, beyond the two the claim allows. -/
theorem exit_one_without_deploy_or_branch_failure :
    run_main cfg_uncaught = { exit_code := 1, raised := true, deploy := none } ∧
    cfg_uncaught.github_event_name ≠ some "pull_request" ∧
    cfg_uncaught.deploy_returncode = 0 := by
  exact ⟨by decide, by decide, by decide⟩

/-- C5 (amended): the process exit code is always 0 or 1; it is 0 exactly
when the deploy invocation ran and exited 0; it is 1 exactly when the deploy
invocation exited non-zero or was never reached — the latter happening
exactly when the run ended first with an uncaught exception (unreadable
release file, or missing argv) or when the branch-deployment name resolution
failed in a pull-request run. -/
theorem exit_code_characterisation (c : Config) :
    ((run_main c).exit_code = 0 ∨ (run_main c).exit_code = 1) ∧
    ((run_main c).exit_code = 0 ↔
      ∃ d, (run_main c).deploy = some d ∧ d.returncode = 0) ∧
    ((run_main c).exit_code = 1 ↔
      (run_main c).deploy = none ∨
        ∃ d, (run_main c).deploy = some d ∧ d.returncode ≠ 0) ∧
    ((run_main c).deploy = none ↔
      (run_main c).raised = true ∨
        (c.github_event_name = some "pull_request" ∧
          c.branch_cmd_returncode ≠ 0)) := by
  by_cases hev : c.github_event_name = some "pull_request" <;>
  cases hargs : c.argv_tail <;>
  by_cases hrc : c.branch_cmd_returncode = 0 <;>
  cases hlsb : c.lsb_release <;>
  by_cases hd : c.deploy_returncode = 0 <;>
    simp [run_main, get_branch_deployment_name, get_runner_ubuntu_version,
      deploy_pex, hev, hargs, hrc, hlsb, hd]

/-- Witness for C5 (amended): at a concrete successful run the
characterisation yields exit code 0. -/
theorem exit_code_characterisation_witness :
    (run_main cfg_demo).exit_code = 0 := by
  obtain ⟨-, h2, -, -⟩ := exit_code_characterisation cfg_demo
  exact h2.mpr ⟨_, rfl, by decide⟩

/-- C6: for every deploy run with a non-null Deployment Target and a
descriptor listing the given locations, `deploy_pex` makes exactly one
pending notification call per location (the `pre_calls`, made before the
packaging tool is invoked); then exactly one `failed` call per location when
the tool exited non-zero and exactly one `success` call per location when it
exited zero — as many calls as locations each time, in descriptor order. -/
theorem deploy_pex_notifies_per_location (c : Config) (yaml0 : String)
    (rest : List String) (s : String) (method : String) :
    ∃ d, deploy_pex c (yaml0 :: rest) (some s) method = Except.ok d ∧
      d.returncode = c.deploy_returncode ∧
      d.pre_calls.map (fun call => (call.deployment, call.location, call.action))
        = (get_locations c.workspace).map (fun loc => (s, loc, "pending")) ∧
      (d.returncode ≠ 0 →
        d.post_calls.map (fun call => (call.deployment, call.location, call.action))
          = (get_locations c.workspace).map (fun loc => (s, loc, "failed"))) ∧
      (d.returncode = 0 →
        d.post_calls.map (fun call => (call.deployment, call.location, call.action))
          = (get_locations c.workspace).map (fun loc => (s, loc, "success"))) ∧
      d.pre_calls.length = (get_locations c.workspace).length ∧
      d.post_calls.length = (get_locations c.workspace).length := by
  refine ⟨_, rfl, rfl, notify_calls_map _ _ _ _ _ _, ?_, ?_, notify_length _ _ _ _ _ _, ?_⟩
  · intro h
    rw [if_pos h]
    exact notify_calls_map _ _ _ _ _ _
  · intro h
    rw [if_neg (fun hn => hn h)]
    exact notify_calls_map _ _ _ _ _ _
  · by_cases hd : c.deploy_returncode = 0
    · rw [if_neg (fun hn => hn hd)]
      exact notify_length _ _ _ _ _ _
    · rw [if_pos hd]
      exact notify_length _ _ _ _ _ _

/-- Witness for C6 at a concrete successful two-location run. -/
theorem deploy_pex_notifies_per_location_witness :
    ∃ d, deploy_pex cfg_demo ["proj/dagster_cloud.yaml"] (some "feature-1") "local"
        = Except.ok d ∧
      d.pre_calls.map (fun call => (call.deployment, call.location, call.action))
        = [("feature-1", "loc1", "pending"), ("feature-1", "loc2", "pending")] ∧
      d.post_calls.map (fun call => (call.deployment, call.location, call.action))
        = [("feature-1", "loc1", "success"), ("feature-1", "loc2", "success")] := by
  obtain ⟨d, hd, hret, h1, -, h4, -, -⟩ := deploy_pex_notifies_per_location
    cfg_demo "proj/dagster_cloud.yaml" [] "feature-1" "local"
  have hrc : d.returncode = 0 := by rw [hret]; decide
  refine ⟨d, hd, ?_, ?_⟩
  · rw [h1]; decide
  · rw [h4 hrc]; decide

/-- C7 counterexample: with a pull-request number available and the comment
script absent from disk, posting is not a no-op — the guard for a missing
update mechanism never fires and the comment subprocess is invoked. -/
theorem missing_script_posting_not_noop :
    (update_pr_comment (some "refs/pull/5") false 3 "dep" "loc" "pending").outcome
      = PostOutcome.posted "5" 3 ∧
    PostOutcome.posted "5" 3 ≠ PostOutcome.skipped_no_pr ∧
    PostOutcome.posted "5" 3 ≠ PostOutcome.skipped_no_script := by
  exact ⟨by decide, by decide, by decide⟩

/-- C7 (amended): notification never escalates: posting is skipped without
raising when the Deployment Target is null or when no pull-request number
can be derived from the trigger reference; when the update mechanism is
unavailable (script absent from disk) the dead guard does not skip and the
comment subprocess is still invoked, but every posting outcome — including
a non-zero exit of that subprocess — is swallowed: the run result and the
process exit code never depend on the comment subprocess exit code. -/
theorem notification_best_effort (ref : Option String) (sod : Bool)
    (crc : Int) (locs : List String) (a : String) (dep loc : String)
    (c : Config) (rc1 rc2 : Int) :
    notify ref sod crc none locs a = [] ∧
    (get_pr_number ref = none →
      (update_pr_comment ref sod crc dep loc a).outcome
        = PostOutcome.skipped_no_pr) ∧
    (∀ pr, get_pr_number ref = some pr →
      (update_pr_comment ref sod crc dep loc a).outcome
        = PostOutcome.posted pr crc) ∧
    (run_main { c with comment_returncode := rc1 }).exit_code
      = (run_main { c with comment_returncode := rc2 }).exit_code ∧
    (run_main { c with comment_returncode := rc1 }).raised
      = (run_main { c with comment_returncode := rc2 }).raised := by
  refine ⟨rfl, ?_, ?_, ?_, ?_⟩
  · intro h
    simp [update_pr_comment, h]
  · intro pr h
    simp [update_pr_comment, update_comment_script_check, h]
  · rw [(run_main_comment_rc_eq c rc1).1, (run_main_comment_rc_eq c rc2).1]
  · rw [(run_main_comment_rc_eq c rc1).2, (run_main_comment_rc_eq c rc2).2]

/-- Witness for C7 (amended) at concrete inputs. -/
theorem notification_best_effort_witness :
    notify (some "refs/heads/main") true 0 none ["loc1"] "pending" = [] ∧
    (update_pr_comment (some "refs/heads/main") true 0 "d" "l" "pending").outcome
      = PostOutcome.skipped_no_pr ∧
    (run_main { cfg_demo with comment_returncode := 5 }).exit_code
      = (run_main { cfg_demo with comment_returncode := 7 }).exit_code := by
  obtain ⟨h1, h2, -, h4, -⟩ := notification_best_effort (some "refs/heads/main")
    true 0 ["loc1"] "pending" "d" "l" cfg_demo 5 7
  exact ⟨h1, h2 (by decide), h4⟩

/-- C8 (spec-modelled): the Docker Fallback Controller performs at most one
containerized re-attempt per invocation: if the initial build exits 0 no
container fallback is invoked regardless of output content; if it exits
non-zero and at least one output line contains the Failure Signature
`"No matching distribution"`, exactly one container re-invocation occurs
with `--build-sdists` appended to the forwarded arguments and its exit
status is final; if it exits non-zero without such a line, no container run
occurs and the original exit status is the final result; in every case at
most one container run happens, so the container result is never inspected
for further fallback. -/
theorem docker_fallback_single_shot (build_args : List String)
    (local_exit : Int) (local_output : List String) (container_exit : Int) :
    (local_exit = 0 →
      docker_fallback build_args local_exit local_output container_exit
        = { final_exit := 0, container_runs := [] }) ∧
    (local_exit ≠ 0 → has_failure_signature local_output = true →
      docker_fallback build_args local_exit local_output container_exit
        = { final_exit := container_exit,
            container_runs := [build_args ++ ["--build-sdists"]] } ∧
      (docker_fallback build_args local_exit local_output
          container_exit).container_runs.length = 1) ∧
    (local_exit ≠ 0 → has_failure_signature local_output = false →
      docker_fallback build_args local_exit local_output container_exit
        = { final_exit := local_exit, container_runs := [] }) ∧
    (docker_fallback build_args local_exit local_output
        container_exit).container_runs.length ≤ 1 := by
  refine ⟨?_, ?_, ?_, ?_⟩
  · intro h
    simp [docker_fallback, h]
  · intro h hs
    constructor <;> simp [docker_fallback, h, hs]
  · intro h hs
    simp [docker_fallback, h, hs]
  · unfold docker_fallback
    split_ifs <;> simp

/-- Witness for C8 at a concrete failed build whose output carries the
Failure Signature. -/
theorem docker_fallback_single_shot_witness :
    docker_fallback ["proj"] 2
        ["ERROR: No matching distribution found for somepkg\n"] 0
      = { final_exit := 0, container_runs := [["proj", "--build-sdists"]] } := by
  obtain ⟨-, h2, -, -⟩ := docker_fallback_single_shot ["proj"] 2
    ["ERROR: No matching distribution found for somepkg\n"] 0
  exact (h2 (by decide) (by decide)).1

/-- C9: the missing-script guard inside `update_pr_comment` is unreachable
for every input: the check tests the truthiness of the `Path.exists` method
object instead of calling it, so once a pull-request number is available the
comment subprocess is invoked even when the script file does not exist on
disk. -/
theorem script_guard_unreachable (sod : Bool) (ref : Option String)
    (crc : Int) (dep loc a : String) :
    (update_pr_comment ref sod crc dep loc a).outcome
        ≠ PostOutcome.skipped_no_script ∧
    (∀ pr, get_pr_number ref = some pr →
      (update_pr_comment ref sod crc dep loc a).outcome
        = PostOutcome.posted pr crc) := by
  constructor
  · cases h : get_pr_number ref <;>
      simp [update_pr_comment, update_comment_script_check, h]
  · intro pr h
    simp [update_pr_comment, update_comment_script_check, h]

/-- Witness for C9: the subprocess is invoked although the script is absent
(`script_on_disk = false`). -/
theorem script_guard_unreachable_witness :
    (update_pr_comment (some "refs/pull/9") false 0 "d" "l" "success").outcome
      = PostOutcome.posted "9" 0 :=
  (script_guard_unreachable false (some "refs/pull/9") 0 "d" "l" "success").2
    "9" (by decide)
